import Mathlib

/-!
Verification of the kodawari identity module
(`py/lib/kodawari.identity/identity/utilities.py`): the Snowflake-style
identifier codec and generator.

Identifiers are unbounded Python integers, embedded as `Nat`.  The generator's
infinite `yield` loop is embedded as a step function on explicit state, driven
by a clock trace `clock : Nat → Nat` giving the value of
`int(time() * 1000) - kodawari_epoch` observed by the single clock read at the
top of the n-th loop iteration.  The `sleep(1)` call is modelled by a boolean
flag recording whether the overflow branch executed.
-/

/-- `kodawari_epoch: int = 1674484829053`. -/
def kodawari_epoch : Nat := 1674484829053

/-- `_total_bits: int = 64`. -/
def _total_bits : Nat := 64

/-- `_unused_sign_bits: int = 1`. -/
def _unused_sign_bits : Nat := 1

/-- `_timestamp_bits: int = 41`. -/
def _timestamp_bits : Nat := 41

/-- `_instance_bits: int = 10`. -/
def _instance_bits : Nat := 10

/-- `_sequence_bits: int = 12`. -/
def _sequence_bits : Nat := 12

/-- `_max_instances: int = (2**_instance_bits) - 1`. -/
def _max_instances : Nat := 2 ^ _instance_bits - 1

/-- `_max_sequences: int = (2**_sequence_bits) - 1`. -/
def _max_sequences : Nat := 2 ^ _sequence_bits - 1

/-- `_get_raw_timestamp`: `return id >> (_instance_bits + _sequence_bits)`. -/
def _get_raw_timestamp (id : Nat) : Nat :=
  id >>> (_instance_bits + _sequence_bits)

/-- `get_timestamp`: `return _get_raw_timestamp(id) + kodawari_epoch`. -/
def get_timestamp (id : Nat) : Nat :=
  _get_raw_timestamp id + kodawari_epoch

/-- `get_instance`:
`timestamp = _get_raw_timestamp(id);
return (id ^ (timestamp << (_instance_bits + _sequence_bits))) >> _sequence_bits`. -/
def get_instance (id : Nat) : Nat :=
  let timestamp : Nat := _get_raw_timestamp id
  (id ^^^ (timestamp <<< (_instance_bits + _sequence_bits))) >>> _sequence_bits

/-- `get_sequence`:
`timestamp = _get_raw_timestamp(id); inst = get_instance(id);
return id ^ (inst << _sequence_bits) ^ (timestamp << (_instance_bits + _sequence_bits))`. -/
def get_sequence (id : Nat) : Nat :=
  let timestamp : Nat := _get_raw_timestamp id
  let inst : Nat := get_instance id
  id ^^^ (inst <<< _sequence_bits) ^^^ (timestamp <<< (_instance_bits + _sequence_bits))

/-- The local state of `id_generator`: `previous_timestamp: int | None` and
`sequence: int`, initialised to `None` and `0`. -/
structure GenState where
  previous_timestamp : Option Nat
  sequence : Nat

/-- The validity check at the top of `id_generator`:
`if instance_id < 0 or instance_id > _max_instances: raise Exception("Invalid instance_id")`,
otherwise the generator starts with `previous_timestamp = None, sequence = 0`.
The raised exception is embedded as `Except.error` carrying the exception
message. -/
def id_generator_init (instance_id : Int) : Except String (Nat × GenState) :=
  if instance_id < 0 ∨ instance_id > (_max_instances : Int) then
    Except.error ("Invalid instance_id")
  else
    Except.ok (instance_id.toNat, ⟨none, 0⟩)

/-- One iteration of the `while True` loop of `id_generator`, given the value
`current_timestamp` obtained by the single clock read at the top of the
iteration.  Returns the updated state, the yielded identifier, and whether
`sleep(1)` was executed during this iteration. -/
def id_generator_step (instance_id : Nat) (s : GenState) (current_timestamp : Nat) :
    GenState × Nat × Bool :=
  let (sequence, slept) : Nat × Bool :=
    match s.previous_timestamp with
    | some previous_timestamp =>
      if previous_timestamp = current_timestamp then
        if s.sequence > _max_sequences then (0, true)
        else (s.sequence + 1, false)
      else (0, false)
    | none => (0, false)
  let shifted_timestamp : Nat := current_timestamp <<< _instance_bits
  let id : Nat := ((shifted_timestamp ||| instance_id) <<< _sequence_bits) ||| sequence
  (⟨some current_timestamp, sequence⟩, id, slept)

/-- The generator state before the n-th call of a generator constructed with
`instance_id`, under the clock trace `clock`. -/
def id_generator_state (instance_id : Nat) (clock : Nat → Nat) : Nat → GenState
  | 0 => ⟨none, 0⟩
  | n + 1 =>
    (id_generator_step instance_id (id_generator_state instance_id clock n) (clock n)).1

/-- The identifier yielded by the n-th call (0-indexed). -/
def id_generator_output (instance_id : Nat) (clock : Nat → Nat) (n : Nat) : Nat :=
  (id_generator_step instance_id (id_generator_state instance_id clock n) (clock n)).2.1

/-- Whether the n-th call executed the `sleep(1)` overflow branch. -/
def id_generator_slept (instance_id : Nat) (clock : Nat → Nat) (n : Nat) : Bool :=
  (id_generator_step instance_id (id_generator_state instance_id clock n) (clock n)).2.2

/-- A clock trace whose first 4098 reads all observe the same millisecond (5)
and whose later reads observe a much later millisecond (9999); used to examine
what the overflow branch composes after its 1-second sleep. -/
def c6_clock : Nat → Nat := fun n => if n ≤ 4097 then 5 else 9999

/-! ### Bit-manipulation helper lemmas -/

theorem xor_high_low (x k : Nat) : x ^^^ ((x >>> k) <<< k) = x % 2 ^ k := by
  apply Nat.eq_of_testBit_eq
  intro j
  simp only [Nat.testBit_xor, Nat.testBit_shiftLeft, Nat.testBit_shiftRight,
    Nat.testBit_mod_two_pow]
  rcases Nat.lt_or_ge j k with hj | hj
  · have h1 : ¬ (j ≥ k) := by omega
    simp [hj, h1]
  · have h1 : ¬ (j < k) := by omega
    have h2 : k + (j - k) = j := by omega
    simp [hj, h1, h2]

theorem raw_timestamp_eq_div (id : Nat) : _get_raw_timestamp id = id / 2 ^ 22 := by
  show id >>> (_instance_bits + _sequence_bits) = id / 2 ^ 22
  rw [Nat.shiftRight_eq_div_pow]
  norm_num [_instance_bits, _sequence_bits]

theorem get_instance_eq (id : Nat) : get_instance id = id / 2 ^ 12 % 2 ^ 10 := by
  have h : get_instance id = (id ^^^ ((id >>> 22) <<< 22)) >>> 12 := rfl
  rw [h, xor_high_low, Nat.shiftRight_eq_div_pow]
  have h2 : (2 : Nat) ^ 22 = 2 ^ 12 * 2 ^ 10 := by norm_num
  rw [h2, Nat.mod_mul_right_div_self]

theorem get_sequence_eq (id : Nat) : get_sequence id = id % 2 ^ 12 := by
  have h : get_sequence id =
      (id ^^^ (get_instance id <<< 12)) ^^^ ((id >>> 22) <<< 22) := rfl
  have hi : get_instance id = (id % 2 ^ 22) >>> 12 := by
    have h2 : get_instance id = (id ^^^ ((id >>> 22) <<< 22)) >>> 12 := rfl
    rw [h2, xor_high_low]
  rw [h, Nat.xor_assoc, Nat.xor_comm (get_instance id <<< 12), ← Nat.xor_assoc,
    xor_high_low, hi, xor_high_low]
  exact Nat.mod_mod_of_dvd id ⟨2 ^ 10, by norm_num⟩

theorem compose_eq_add (t i s : Nat) (hi : i < 2 ^ 10) (hs : s < 2 ^ 12) :
    ((t <<< 10 ||| i) <<< 12) ||| s = t * 2 ^ 22 + i * 2 ^ 12 + s := by
  have h1 : (2 : Nat) ^ 10 * t + i = t <<< 10 ||| i := by
    rw [Nat.shiftLeft_eq, Nat.mul_comm t]
    exact Nat.mul_add_lt_is_or hi t
  have h2 : (2 : Nat) ^ 12 * (2 ^ 10 * t + i) + s = (2 ^ 10 * t + i) <<< 12 ||| s := by
    rw [Nat.shiftLeft_eq, Nat.mul_comm (2 ^ 10 * t + i)]
    exact Nat.mul_add_lt_is_or hs _
  rw [← h1, ← h2]
  ring

/-! ### Generator run lemmas -/

theorem id_generator_output_eq (instance_id : Nat) (clock : Nat → Nat) (n : Nat) :
    id_generator_output instance_id clock n =
      (id_generator_step instance_id
        (id_generator_state instance_id clock n) (clock n)).2.1 := rfl

theorem id_generator_slept_eq (instance_id : Nat) (clock : Nat → Nat) (n : Nat) :
    id_generator_slept instance_id clock n =
      (id_generator_step instance_id
        (id_generator_state instance_id clock n) (clock n)).2.2 := rfl

theorem id_generator_state_const (instance_id T : Nat) :
    ∀ k, k ≤ 4096 →
      id_generator_state instance_id (fun _ => T) (k + 1) = ⟨some T, k⟩ := by
  intro k
  induction k with
  | zero =>
    intro _
    rfl
  | succ k ih =>
    intro hk
    have hk' : k ≤ 4096 := by omega
    have hmax : _max_sequences = 4095 := by norm_num [_max_sequences, _sequence_bits]
    have hkk : ¬ k > _max_sequences := by omega
    show (id_generator_step instance_id
      (id_generator_state instance_id (fun _ => T) (k + 1)) T).1 = _
    rw [ih hk']
    simp [id_generator_step, hkk]

theorem id_generator_output_const (instance_id T k : Nat) (hk : k ≤ 4096) :
    id_generator_output instance_id (fun _ => T) k =
      ((T <<< 10 ||| instance_id) <<< 12) ||| k := by
  cases k with
  | zero => rfl
  | succ k =>
    have hs : id_generator_state instance_id (fun _ => T) (k + 1) = ⟨some T, k⟩ :=
      id_generator_state_const instance_id T k (by omega)
    have hmax : _max_sequences = 4095 := by norm_num [_max_sequences, _sequence_bits]
    have hkk : ¬ k > _max_sequences := by omega
    show (id_generator_step instance_id
      (id_generator_state instance_id (fun _ => T) (k + 1)) T).2.1 = _
    rw [hs]
    simp [id_generator_step, hkk, _instance_bits, _sequence_bits]

theorem id_generator_slept_const (instance_id T k : Nat) (hk : k ≤ 4096) :
    id_generator_slept instance_id (fun _ => T) k = false := by
  cases k with
  | zero => rfl
  | succ k =>
    have hs : id_generator_state instance_id (fun _ => T) (k + 1) = ⟨some T, k⟩ :=
      id_generator_state_const instance_id T k (by omega)
    have hmax : _max_sequences = 4095 := by norm_num [_max_sequences, _sequence_bits]
    have hkk : ¬ k > _max_sequences := by omega
    show (id_generator_step instance_id
      (id_generator_state instance_id (fun _ => T) (k + 1)) T).2.2 = _
    rw [hs]
    simp [id_generator_step, hkk]

theorem id_generator_state_4097 (instance_id T : Nat) :
    id_generator_state instance_id (fun _ => T) 4097 = ⟨some T, 4096⟩ :=
  id_generator_state_const instance_id T 4096 (by omega)

theorem id_generator_output_4097 (instance_id T : Nat) :
    id_generator_output instance_id (fun _ => T) 4097 =
      ((T <<< 10 ||| instance_id) <<< 12) ||| 0 := by
  have hmax : _max_sequences = 4095 := by norm_num [_max_sequences, _sequence_bits]
  have hgt : (4096 : Nat) > _max_sequences := by omega
  rw [id_generator_output_eq, id_generator_state_4097]
  simp [id_generator_step, hgt, _instance_bits, _sequence_bits]

theorem id_generator_slept_4097 (instance_id T : Nat) :
    id_generator_slept instance_id (fun _ => T) 4097 = true := by
  have hmax : _max_sequences = 4095 := by norm_num [_max_sequences, _sequence_bits]
  have hgt : (4096 : Nat) > _max_sequences := by omega
  rw [id_generator_slept_eq, id_generator_state_4097]
  simp [id_generator_step, hgt]

theorem id_generator_state_congr (instance_id : Nat) (c1 c2 : Nat → Nat) :
    ∀ n, (∀ m, m < n → c1 m = c2 m) →
      id_generator_state instance_id c1 n = id_generator_state instance_id c2 n := by
  intro n
  induction n with
  | zero =>
    intro _
    rfl
  | succ n ih =>
    intro h
    show (id_generator_step instance_id (id_generator_state instance_id c1 n) (c1 n)).1 =
      (id_generator_step instance_id (id_generator_state instance_id c2 n) (c2 n)).1
    rw [ih (fun m hm => h m (by omega)), h n (by omega)]

theorem id_generator_output_congr (instance_id : Nat) (c1 c2 : Nat → Nat) (n : Nat)
    (h : ∀ m, m ≤ n → c1 m = c2 m) :
    id_generator_output instance_id c1 n = id_generator_output instance_id c2 n := by
  show (id_generator_step instance_id (id_generator_state instance_id c1 n) (c1 n)).2.1 =
    (id_generator_step instance_id (id_generator_state instance_id c2 n) (c2 n)).2.1
  rw [id_generator_state_congr instance_id c1 c2 n (fun m hm => h m (by omega)),
    h n (by omega)]

theorem id_generator_slept_congr (instance_id : Nat) (c1 c2 : Nat → Nat) (n : Nat)
    (h : ∀ m, m ≤ n → c1 m = c2 m) :
    id_generator_slept instance_id c1 n = id_generator_slept instance_id c2 n := by
  show (id_generator_step instance_id (id_generator_state instance_id c1 n) (c1 n)).2.2 =
    (id_generator_step instance_id (id_generator_state instance_id c2 n) (c2 n)).2.2
  rw [id_generator_state_congr instance_id c1 c2 n (fun m hm => h m (by omega)),
    h n (by omega)]

/-! ### Concrete bit-level computations shared by several results -/

theorem lor_5120_1 : (5 : Nat) <<< 10 ||| 1 = 5121 := by
  have h := Nat.mul_add_lt_is_or (i := 10) (b := 1) (by norm_num) 5
  norm_num at h
  rw [Nat.shiftLeft_eq]
  norm_num
  omega

theorem shl_5121 : (5121 : Nat) <<< 12 = 20975616 := by
  rw [Nat.shiftLeft_eq]

theorem lor_20971520_4096 : (20971520 : Nat) ||| 4096 = 20975616 := by
  have h := Nat.mul_add_lt_is_or (i := 13) (b := 4096) (by norm_num) 2560
  norm_num at h
  omega

theorem shl_5120_12 : ((5 : Nat) <<< 10) <<< 12 = 20971520 := by
  rw [Nat.shiftLeft_eq, Nat.shiftLeft_eq]

theorem lor_20975616_4096 : (20975616 : Nat) ||| 4096 = 20975616 := by
  have h : (20975616 : Nat) = 20971520 ||| 4096 := by
    rw [lor_20971520_4096]
  calc (20975616 : Nat) ||| 4096 = (20971520 ||| 4096) ||| 4096 := by rw [← h]
    _ = 20971520 ||| (4096 ||| 4096) := Nat.or_assoc 20971520 4096 4096
    _ = 20971520 ||| 4096 := by rw [Nat.or_self]
    _ = 20975616 := lor_20971520_4096

theorem output_inst1_0 : id_generator_output 1 (fun _ => 5) 0 = 20975616 := by
  rw [id_generator_output_const 1 5 0 (by omega), Nat.or_zero, lor_5120_1, shl_5121]

theorem output_inst1_4096 : id_generator_output 1 (fun _ => 5) 4096 = 20975616 := by
  rw [id_generator_output_const 1 5 4096 (by omega), lor_5120_1, shl_5121,
    lor_20975616_4096]

theorem output_inst0_4096 : id_generator_output 0 (fun _ => 5) 4096 = 20975616 := by
  rw [id_generator_output_const 0 5 4096 (by omega), Nat.or_zero, shl_5120_12,
    lor_20971520_4096]

theorem get_instance_20975616 : get_instance 20975616 = 1 := by
  rw [get_instance_eq]
  norm_num

theorem get_sequence_20975616 : get_sequence 20975616 = 0 := by
  rw [get_sequence_eq]
  norm_num

/-! ### Claims -/

/-- C1: Codec round-trip (lossless decomposition) — for every timestamp
`t < 2^41`, instance `i` in [0, 1023] and sequence `s` in [0, 4095], composing
`id = (((t << 10) | i) << 12) | s` and decoding yields the original
components, and `get_timestamp` returns `t + kodawari_epoch`. -/
theorem c1_codec_round_trip (t i s : Nat)
    (ht : t < 2 ^ 41) (hi : i ≤ 1023) (hs : s ≤ 4095) :
    _get_raw_timestamp (((t <<< 10 ||| i) <<< 12) ||| s) = t ∧
    get_instance (((t <<< 10 ||| i) <<< 12) ||| s) = i ∧
    get_sequence (((t <<< 10 ||| i) <<< 12) ||| s) = s ∧
    get_timestamp (((t <<< 10 ||| i) <<< 12) ||| s) = t + kodawari_epoch := by
  have e10 : (2 : Nat) ^ 10 = 1024 := by norm_num
  have e12 : (2 : Nat) ^ 12 = 4096 := by norm_num
  have e22 : (2 : Nat) ^ 22 = 4194304 := by norm_num
  have hi2 : i < 2 ^ 10 := by omega
  have hs2 : s < 2 ^ 12 := by omega
  have hcomp := compose_eq_add t i s hi2 hs2
  refine ⟨?_, ?_, ?_, ?_⟩
  · rw [raw_timestamp_eq_div, hcomp, e22, e12]
    omega
  · rw [get_instance_eq, hcomp, e22, e12, e10]
    omega
  · rw [get_sequence_eq, hcomp, e22, e12]
    omega
  · show _get_raw_timestamp (((t <<< 10 ||| i) <<< 12) ||| s) + kodawari_epoch
      = t + kodawari_epoch
    rw [raw_timestamp_eq_div, hcomp, e22, e12]
    omega

/-- Witness for C1 at `t = 3`, `i = 5`, `s = 7`. -/
theorem c1_codec_round_trip_witness :
    (3 : Nat) < 2 ^ 41 ∧ (5 : Nat) ≤ 1023 ∧ (7 : Nat) ≤ 4095 ∧
    (_get_raw_timestamp (((3 <<< 10 ||| 5) <<< 12) ||| 7) = 3 ∧
     get_instance (((3 <<< 10 ||| 5) <<< 12) ||| 7) = 5 ∧
     get_sequence (((3 <<< 10 ||| 5) <<< 12) ||| 7) = 7 ∧
     get_timestamp (((3 <<< 10 ||| 5) <<< 12) ||| 7) = 3 + kodawari_epoch) :=
  ⟨by norm_num, by norm_num, by norm_num,
    c1_codec_round_trip 3 5 7 (by norm_num) (by norm_num) (by norm_num)⟩

/-- C10: the XOR-based decoders equal plain shift-and-mask field extraction on
every nonnegative integer, generator-issued or not:
`get_instance id = (id >> 12) mod 2^10` and `get_sequence id = id mod 2^12`. -/
theorem c10_decoders_are_shift_and_mask (id : Nat) :
    get_instance id = (id >>> 12) % 2 ^ 10 ∧ get_sequence id = id % 2 ^ 12 := by
  constructor
  · rw [get_instance_eq, Nat.shiftRight_eq_div_pow]
  · exact get_sequence_eq id

/-- C8: construction fails with the invalid-instance error exactly when the
requested instance lies outside [0, 1023]; in particular -1 and 1024 fail
while 0 and 1023 succeed and yield the initial generator state. -/
theorem c8_construction_validity_boundary :
    (∀ instance_id : Int,
      id_generator_init instance_id = Except.error ("Invalid instance_id") ↔
        (instance_id < 0 ∨ instance_id > 1023)) ∧
    id_generator_init (-1) = Except.error ("Invalid instance_id") ∧
    id_generator_init 1024 = Except.error ("Invalid instance_id") ∧
    id_generator_init 0 = Except.ok (0, ⟨none, 0⟩) ∧
    id_generator_init 1023 = Except.ok (1023, ⟨none, 0⟩) := by
  have hmax : (_max_instances : Int) = 1023 := by
    norm_num [_max_instances, _instance_bits]
  refine ⟨?_, ?_, ?_, ?_, ?_⟩
  · intro instance_id
    unfold id_generator_init
    rw [hmax]
    by_cases h : instance_id < 0 ∨ instance_id > 1023
    · rw [if_pos h]
      simp [h]
    · rw [if_neg h]
      simp [h]
  · rfl
  · rfl
  · rfl
  · rfl

/-- C9: concrete scenario — with the clock fixed at
`1674664504000 - kodawari_epoch`, the generator for instance 1 returns
`753611348905986` on its third call, decoding to instance 1 and sequence 2. -/
theorem c9_concrete_generator_scenario :
    id_generator_output 1 (fun _ => 1674664504000 - kodawari_epoch) 2 =
      753611348905986 ∧
    get_instance 753611348905986 = 1 ∧
    get_sequence 753611348905986 = 2 := by
  have hclock : (fun _ : Nat => 1674664504000 - kodawari_epoch) =
      (fun _ : Nat => 179674947) := by
    funext n
    norm_num [kodawari_epoch]
  refine ⟨?_, ?_, ?_⟩
  · rw [hclock, id_generator_output_const 1 179674947 2 (by omega),
      compose_eq_add 179674947 1 2 (by norm_num) (by norm_num)]
    norm_num
  · rw [get_instance_eq]
    norm_num
  · rw [get_sequence_eq]
    norm_num

/-- C7: strict monotonicity under a strictly advancing clock — if every call
observes a strictly larger millisecond than the previous call, the returned
identifiers are strictly increasing. -/
theorem c7_strictly_increasing_clock_monotonic (instance_id : Nat)
    (clock : Nat → Nat) (hinst : instance_id ≤ _max_instances)
    (hclock : ∀ n, clock n < clock (n + 1)) (m n : Nat) (hmn : m < n) :
    id_generator_output instance_id clock m <
      id_generator_output instance_id clock n := by
  have hmax : _max_instances = 1023 := by norm_num [_max_instances, _instance_bits]
  have e10 : (2 : Nat) ^ 10 = 1024 := by norm_num
  have hi2 : instance_id < 2 ^ 10 := by omega
  have hstate : ∀ j, id_generator_state instance_id clock (j + 1) =
      ⟨some (clock j), 0⟩ := by
    intro j
    induction j with
    | zero => rfl
    | succ j ih =>
      have hne : clock j ≠ clock (j + 1) := Nat.ne_of_lt (hclock j)
      show (id_generator_step instance_id
        (id_generator_state instance_id clock (j + 1)) (clock (j + 1))).1 = _
      rw [ih]
      simp [id_generator_step, hne]
  have hout : ∀ j, id_generator_output instance_id clock j =
      clock j * 2 ^ 22 + instance_id * 2 ^ 12 := by
    intro j
    cases j with
    | zero =>
      calc id_generator_output instance_id clock 0
          = ((clock 0 <<< 10 ||| instance_id) <<< 12) ||| 0 := rfl
        _ = clock 0 * 2 ^ 22 + instance_id * 2 ^ 12 + 0 :=
            compose_eq_add _ _ 0 hi2 (by norm_num)
        _ = clock 0 * 2 ^ 22 + instance_id * 2 ^ 12 := by rw [Nat.add_zero]
    | succ j =>
      have hne : clock j ≠ clock (j + 1) := Nat.ne_of_lt (hclock j)
      rw [id_generator_output_eq, hstate j]
      calc (id_generator_step instance_id ⟨some (clock j), 0⟩ (clock (j + 1))).2.1
          = ((clock (j + 1) <<< 10 ||| instance_id) <<< 12) ||| 0 := by
            simp [id_generator_step, hne, _instance_bits, _sequence_bits]
        _ = clock (j + 1) * 2 ^ 22 + instance_id * 2 ^ 12 + 0 :=
            compose_eq_add _ _ 0 hi2 (by norm_num)
        _ = clock (j + 1) * 2 ^ 22 + instance_id * 2 ^ 12 := by rw [Nat.add_zero]
  have hcm : clock m < clock n := (strictMono_nat_of_lt_succ hclock) hmn
  have e22 : (2 : Nat) ^ 22 = 4194304 := by norm_num
  have e12 : (2 : Nat) ^ 12 = 4096 := by norm_num
  rw [hout m, hout n, e22, e12]
  omega

/-- Witness for C7: instance 1 and the identity clock trace, calls 0 and 1. -/
theorem c7_strictly_increasing_clock_monotonic_witness :
    id_generator_output 1 (fun n => n) 0 < id_generator_output 1 (fun n => n) 1 :=
  c7_strictly_increasing_clock_monotonic 1 (fun n => n)
    (by norm_num [_max_instances, _instance_bits])
    (fun n => Nat.lt_succ_self n) 0 1 (by norm_num)

/-- C2 counterexample: with instance 0 and a constant clock, the state after
4097 calls still holds the counter value 4096 that was composed into the
4097th identifier (call index 4096) — the reset to 0 did not happen before
that composition — and the spilled bit makes the emitted identifier decode to
instance 1 instead of 0. -/
theorem c2_counterexample_reset_not_before_composition :
    (id_generator_state 0 (fun _ => 5) 4097).sequence = 4096 ∧
    id_generator_output 0 (fun _ => 5) 4096 = ((5 <<< 10 ||| 0) <<< 12) ||| 4096 ∧
    get_instance (id_generator_output 0 (fun _ => 5) 4096) = 1 := by
  refine ⟨?_, ?_, ?_⟩
  · rw [id_generator_state_4097]
  · exact id_generator_output_const 0 5 4096 (by omega)
  · rw [output_inst0_4096, get_instance_20975616]

/-- C2 amended: every emitted identifier decodes to a sequence component in
[0, 4095] (since `get_sequence` extracts the low 12 bits), but the counter
reset does not precede composition: the 4097th same-millisecond call composes
with the counter at 4096 (= `_max_sequences + 1`), whose overflow bit spills
into the instance field; the counter is reset only on the following call. -/
theorem c2_amended_sequence_in_range :
    (∀ instance_id : Nat, ∀ clock : Nat → Nat, ∀ n : Nat,
      get_sequence (id_generator_output instance_id clock n) ≤ _max_sequences) ∧
    (∀ instance_id T : Nat,
      (id_generator_state instance_id (fun _ => T) 4097).sequence =
        _max_sequences + 1) := by
  have hmax : _max_sequences = 4095 := by norm_num [_max_sequences, _sequence_bits]
  constructor
  · intro instance_id clock n
    rw [get_sequence_eq]
    have e12 : (2 : Nat) ^ 12 = 4096 := by norm_num
    have h := Nat.mod_lt (id_generator_output instance_id clock n)
      (show 0 < 2 ^ 12 by norm_num)
    omega
  · intro instance_id T
    rw [id_generator_state_4097]
    show (4096 : Nat) = _max_sequences + 1
    omega

/-- C3: the code violates the claim — under a never-decreasing (constant)
clock, the 4097th identifier emitted by the instance-1 generator equals its
1st identifier: two emitted identifiers are equal. -/
theorem c3_duplicate_under_nondecreasing_clock :
    id_generator_output 1 (fun _ => 5) 4096 = id_generator_output 1 (fun _ => 5) 0 ∧
    id_generator_output 1 (fun _ => 5) 0 = 20975616 := by
  constructor
  · rw [output_inst1_4096, output_inst1_0]
  · exact output_inst1_0

/-- C4: the code violates the claim — the 4097th identifier emitted within one
millisecond by a generator constructed with instance 0 decodes to instance 1:
the sequence-counter overflow bit spills into the instance field. -/
theorem c4_instance_field_corrupted :
    get_instance (id_generator_output 0 (fun _ => 5) 4096) = 1 := by
  rw [output_inst0_4096, get_instance_20975616]

/-- C5 counterexample: the 4097th request within one millisecond (call index
4096, after identifiers with sequences 0..4095 were issued) does not execute
the sleep branch — the claimed blocking does not happen on that call. -/
theorem c5_counterexample_4097th_does_not_block :
    id_generator_slept 1 (fun _ => 5) 4096 = false :=
  id_generator_slept_const 1 5 4096 (by omega)

/-- C5 amended: the 4097th same-millisecond request returns without blocking
(composing the counter value 4096); it is the 4098th request that executes the
~1-second sleep, and that blocking call returns an identifier whose sequence
component is 0. -/
theorem c5_amended_overflow_boundary :
    (∀ instance_id T : Nat,
      id_generator_slept instance_id (fun _ => T) 4096 = false) ∧
    (∀ instance_id T : Nat,
      id_generator_slept instance_id (fun _ => T) 4097 = true) ∧
    (∀ instance_id T : Nat,
      get_sequence (id_generator_output instance_id (fun _ => T) 4097) = 0) := by
  refine ⟨fun i T => id_generator_slept_const i T 4096 (by omega),
    fun i T => id_generator_slept_4097 i T, fun i T => ?_⟩
  rw [id_generator_output_4097, Nat.or_zero, get_sequence_eq, Nat.shiftLeft_eq,
    Nat.mul_mod_left]

theorem c6_clock_low (m : Nat) (hm : m ≤ 4097) : c6_clock m = 5 := by
  simp only [c6_clock]
  rw [if_pos hm]

theorem c6_state_4097 : id_generator_state 1 c6_clock 4097 = ⟨some 5, 4096⟩ := by
  rw [id_generator_state_congr 1 c6_clock (fun _ => 5) 4097
    (fun m hm => c6_clock_low m (by omega))]
  exact id_generator_state_4097 1 5

theorem c6_output_4097 : id_generator_output 1 c6_clock 4097 = 20975616 := by
  rw [id_generator_output_congr 1 c6_clock (fun _ => 5) 4097
    (fun m hm => c6_clock_low m hm)]
  rw [id_generator_output_4097, Nat.or_zero, lor_5120_1, shl_5121]

/-- C6: the code violates the claim — with a clock whose reads observe
millisecond 5 through the sleeping call and millisecond 9999 afterwards, the
call that executes the overflow sleep (index 4097) emits an identifier whose
timestamp component is 5, the single reading taken before the sleep at the top
of the loop iteration; the code performs no clock read after the sleep (the
next read, index 4098, would observe 9999), and the emitted identifier
duplicates the first identifier of that millisecond. -/
theorem c6_stale_timestamp_after_sleep :
    id_generator_slept 1 c6_clock 4097 = true ∧
    _get_raw_timestamp (id_generator_output 1 c6_clock 4097) = 5 ∧
    c6_clock 4098 = 9999 ∧
    id_generator_output 1 c6_clock 4097 = id_generator_output 1 c6_clock 0 := by
  refine ⟨?_, ?_, ?_, ?_⟩
  · rw [id_generator_slept_congr 1 c6_clock (fun _ => 5) 4097
      (fun m hm => c6_clock_low m hm)]
    exact id_generator_slept_4097 1 5
  · rw [c6_output_4097, raw_timestamp_eq_div]
    norm_num
  · simp only [c6_clock]
    rw [if_neg (by omega)]
  · rw [c6_output_4097,
      id_generator_output_congr 1 c6_clock (fun _ => 5) 0
        (fun m hm => c6_clock_low m (by omega)),
      output_inst1_0]
